import Mathlib

/-!
Shallow embedding of the wholesale_management module
(`wholesale_management/utils/calculations.py` and
`wholesale_management/api/wholesale_offers.py`).

Modelling conventions:
- SQL tables become lists of records; `JOIN child.parent = parent.name`
  becomes `tableJoin`, producing the list of matching (child, parent) pairs.
- Python/MySQL numbers (floats) become `ℚ`; dates become day numbers `ℤ`
  (Rata Die style), with `civilFromDays`/`daysFromCivil` converting to and
  from calendar year/month/day exactly as the proleptic Gregorian calendar
  does.  String dates in the source compare chronologically, as do day
  numbers.
- `datetime.now()` becomes an explicit `today : ℤ` argument.
- `frappe.db.set_value` (which may raise) becomes an oracle
  `write : String → PyVal → Except String Unit` passed to the updater.
- Python truthiness on the duck-typed offer-price field is modelled by
  `PyVal` and `pyTruthy`.
-/

/-- Calendar date (proleptic Gregorian). -/
structure CivilDate where
  year : ℤ
  month : ℤ
  day : ℤ
deriving DecidableEq

/-- Day number of a calendar date (days since 1970-01-01), following the
standard civil-from-days algorithm.  `Int.fdiv` is used where the quotient
of a possibly-negative value must round toward negative infinity. -/
def daysFromCivil (c : CivilDate) : ℤ :=
  let y := if c.month ≤ 2 then c.year - 1 else c.year
  let era := Int.fdiv y 400
  let yoe := y - era * 400
  let mp := (c.month + 9) % 12
  let doy := (153 * mp + 2) / 5 + c.day - 1
  let doe := yoe * 365 + yoe / 4 - yoe / 100 + doy
  era * 146097 + doe - 719468

/-- Calendar date of a day number (inverse of `daysFromCivil`). -/
def civilFromDays (z : ℤ) : CivilDate :=
  let z2 := z + 719468
  let era := Int.fdiv z2 146097
  let doe := z2 - era * 146097
  let yoe := (doe - doe / 1460 + doe / 36524 - doe / 146096) / 365
  let y := yoe + era * 400
  let doy := doe - (365 * yoe + yoe / 4 - yoe / 100)
  let mp := (5 * doy + 2) / 153
  let d := doy - (153 * mp + 2) / 5 + 1
  let m := mp + (if mp < 10 then 3 else -9)
  ⟨y + (if m ≤ 2 then 1 else 0), m, d⟩

/-- Linearised calendar month of a day number (used for the SQL
`DATE_FORMAT(posting_date, Y-m)` bucketing: two days get the same key
exactly when they fall in the same calendar year and month, and the key
order matches the string order of `YYYY-MM`). -/
def monthKey (z : ℤ) : ℤ :=
  (civilFromDays z).year * 12 + (civilFromDays z).month

/-- A value of the duck-typed `custom_wholesale_offer_price` field
(string, number, or NULL). -/
inductive PyVal where
  | none : PyVal
  | num : ℚ → PyVal
  | str : String → PyVal
deriving DecidableEq

/-- Python truthiness for `PyVal` (`0`, `""` and `None` are falsy). -/
def pyTruthy : PyVal → Bool
  | PyVal.none => false
  | PyVal.num q => decide (q ≠ 0)
  | PyVal.str s => decide (s ≠ "")

/-! ## The external tables read by the module -/

/-- A `tabItem` record (the fields the module reads). -/
structure Item where
  name : String
  item_name : String
  brand : Option String
  item_group : Option String
  disabled : Bool
  is_stock_item : Bool
  custom_wholesale_offer_price : PyVal

/-- A `tabBin` record: on-hand stock of one item in one warehouse. -/
structure Bin where
  item_code : String
  warehouse : String
  actual_qty : ℚ

/-- A `tabSales Invoice` record. -/
structure SalesInvoice where
  name : String
  docstatus : ℤ
  posting_date : ℤ
  is_return : Bool

/-- A `tabSales Invoice Item` record. -/
structure SalesInvoiceItem where
  parent : String
  item_code : String
  qty : ℚ
  base_amount : ℚ
  warehouse : String

/-- A `tabSales Order` record. -/
structure SalesOrder where
  name : String
  docstatus : ℤ
  status : String

/-- A `tabSales Order Item` record. -/
structure SalesOrderItem where
  parent : String
  item_code : String
  qty : ℚ
  delivered_qty : ℚ

/-- A `tabQuotation` record. -/
structure Quotation where
  name : String
  docstatus : ℤ
  status : String

/-- A `tabQuotation Item` record. -/
structure QuotationItem where
  parent : String
  item_code : String
  qty : ℚ

/-- SQL inner join `child.parent = parent.name`: every (child, parent)
pair whose key fields match, in child order. -/
def tableJoin {α β : Type} (parents : List β) (pname : β → String)
    (lparent : α → String) : List α → List (α × β)
  | [] => []
  | l :: ls =>
      ((parents.filter (fun p => pname p == lparent l)).map (fun p => (l, p)))
        ++ tableJoin parents pname lparent ls

/-! ## calculations.py -/

/-- The month divisor computed at the top of `calculate_par_level`:
calendar year/month difference between now and the lookback date,
replaced by 1 when it is 0. -/
def monthsDivisor (today lookback : ℤ) : ℤ :=
  let t := civilFromDays today
  let l := civilFromDays lookback
  let months := (t.year - l.year) * 12 + (t.month - l.month)
  if months = 0 then 1 else months

/-- `calculate_par_level`: total quantity over posted, non-return sales
invoice lines for the item dated on/after the lookback date, divided by
the month divisor. -/
def calculate_par_level (invs : List SalesInvoice) (lines : List SalesInvoiceItem)
    (item_code : String) (today lookback : ℤ) : ℚ :=
  let total_qty :=
    (((tableJoin invs SalesInvoice.name SalesInvoiceItem.parent lines).filter
        (fun p => p.1.item_code == item_code && p.2.docstatus == 1 &&
          decide (lookback ≤ p.2.posting_date) && !p.2.is_return)).map
      (fun p => p.1.qty)).sum
  total_qty / ((monthsDivisor today lookback : ℤ) : ℚ)

/-- The sales-order statuses excluded by `calculate_on_hold_qty`. -/
def soClosedStatuses : List String := ["Closed", "Completed", "Cancelled"]

/-- The quotation statuses excluded by `calculate_on_hold_qty`. -/
def quotClosedStatuses : List String := ["Lost", "Cancelled", "Ordered"]

/-- `calculate_on_hold_qty`: outstanding sales-order quantity
(`qty - delivered_qty`, only where positive, over posted orders in a
non-terminal status) plus full quotation line quantity (over posted
quotations in an open status). -/
def calculate_on_hold_qty (orders : List SalesOrder) (soLines : List SalesOrderItem)
    (quots : List Quotation) (quotLines : List QuotationItem)
    (item_code : String) : ℚ :=
  let on_hold_so :=
    (((tableJoin orders SalesOrder.name SalesOrderItem.parent soLines).filter
        (fun p => p.1.item_code == item_code && p.2.docstatus == 1 &&
          !(soClosedStatuses.contains p.2.status) &&
          decide (0 < p.1.qty - p.1.delivered_qty))).map
      (fun p => p.1.qty - p.1.delivered_qty)).sum
  let on_hold_quot :=
    (((tableJoin quots Quotation.name QuotationItem.parent quotLines).filter
        (fun p => p.1.item_code == item_code && p.2.docstatus == 1 &&
          !(quotClosedStatuses.contains p.2.status))).map
      (fun p => p.1.qty)).sum
  on_hold_so + on_hold_quot

/-- `calculate_wholesale_qty`: available minus on-hold minus the buffered
par reserve, clamped below at 0. -/
def calculate_wholesale_qty (qty_available on_hold par_level : ℚ)
    (months_par : ℤ) (buffer_percent : ℚ) : ℚ :=
  let par_with_buffer := (par_level * (months_par : ℚ)) * (1 + buffer_percent / 100)
  let wholesale_qty := qty_available - on_hold - par_with_buffer
  max 0 wholesale_qty

/-- `calculate_avg_sale_price`: quantity-weighted per-unit pre-tax price
over posted, non-return sales lines with positive quantity dated on/after
the lookback date, optionally restricted to one warehouse; 0 when the
total quantity is not positive.  The Python `if warehouse:` test treats
`None` and the empty string as absent. -/
def calculate_avg_sale_price (invs : List SalesInvoice) (lines : List SalesInvoiceItem)
    (item_code : String) (lookback : ℤ) (warehouse : Option String) : ℚ :=
  let joined := tableJoin invs SalesInvoice.name SalesInvoiceItem.parent lines
  let base := fun (p : SalesInvoiceItem × SalesInvoice) =>
    p.1.item_code == item_code && p.2.docstatus == 1 &&
      decide (lookback ≤ p.2.posting_date) && !p.2.is_return && decide (0 < p.1.qty)
  let sel := match warehouse with
    | Option.some w =>
        if w = "" then joined.filter base
        else joined.filter (fun p => base p && p.1.warehouse == w)
    | Option.none => joined.filter base
  let total_amount := (sel.map (fun p => p.1.base_amount)).sum
  let total_qty := (sel.map (fun p => p.1.qty)).sum
  if 0 < total_qty then total_amount / total_qty else 0

/-- One result row of `get_item_sales_history`: a calendar-month bucket. -/
structure HistoryBucket where
  month : ℤ
  qty_sold : ℚ
  invoice_count : ℕ

/-- Descending order on month keys (the SQL `ORDER BY month DESC`). -/
def monthGe (a b : ℤ) : Prop := b ≤ a

instance : DecidableRel monthGe := fun a b => inferInstanceAs (Decidable (b ≤ a))

instance : IsTotal ℤ monthGe := ⟨fun a b => le_total b a⟩

instance : IsTrans ℤ monthGe := ⟨fun _ _ _ h1 h2 => le_trans h2 h1⟩

/-- The joined, filtered sales lines that `get_item_sales_history` groups:
posted, non-return lines of the item dated on/after `today - months * 30`
days (the query has no upper date bound). -/
def salesHistoryLines (invs : List SalesInvoice) (lines : List SalesInvoiceItem)
    (item_code : String) (today months : ℤ) : List (SalesInvoiceItem × SalesInvoice) :=
  (tableJoin invs SalesInvoice.name SalesInvoiceItem.parent lines).filter
    (fun p => p.1.item_code == item_code && p.2.docstatus == 1 &&
      decide (today - months * 30 ≤ p.2.posting_date) && !p.2.is_return)

/-- `get_item_sales_history`: group the selected lines by calendar month,
most recent month first; each bucket carries the total quantity and the
number of distinct invoices of its month.  Months with no selected lines
produce no bucket. -/
def get_item_sales_history (invs : List SalesInvoice) (lines : List SalesInvoiceItem)
    (item_code : String) (today months : ℤ) : List HistoryBucket :=
  let sel := salesHistoryLines invs lines item_code today months
  let keys := (sel.map (fun p => monthKey p.2.posting_date)).dedup
  (List.insertionSort monthGe keys).map (fun k =>
    let grp := sel.filter (fun p => monthKey p.2.posting_date == k)
    { month := k
      qty_sold := (grp.map (fun p => p.1.qty)).sum
      invoice_count := ((grp.map (fun p => p.2.name)).dedup).length })

/-! ## api/wholesale_offers.py -/

/-- Python banker rounding (`round(x)`) on the rational model:
round half to even. -/
def roundHalfEven (q : ℚ) : ℤ :=
  if q - (⌊q⌋ : ℚ) < 1 / 2 then ⌊q⌋
  else if 1 / 2 < q - (⌊q⌋ : ℚ) then ⌊q⌋ + 1
  else if ⌊q⌋ % 2 = 0 then ⌊q⌋ else ⌊q⌋ + 1

/-- `round(x, 0)` as used on `wholesale_qty`. -/
def pyRound0 (q : ℚ) : ℚ := (roundHalfEven q : ℚ)

/-- `round(x, 2)` as used on `par_level`. -/
def pyRound2 (q : ℚ) : ℚ := ((roundHalfEven (q * 100) : ℚ)) / 100

/-- Strict order on strings by their character sequences (models the SQL
`ORDER BY` collation as a total order on strings). -/
def charListLt : List Char → List Char → Bool
  | [], [] => false
  | [], _ :: _ => true
  | _ :: _, [] => false
  | a :: as, b :: bs =>
      decide (a.toNat < b.toNat) || (a.toNat == b.toNat && charListLt as bs)

/-- Strict string order. -/
def strLt (a b : String) : Bool := charListLt a.data b.data

/-- Non-strict string order. -/
def strLe (a b : String) : Bool := strLt a b || a == b

/-- Order on the nullable `brand` column: SQL sorts NULL first. -/
def optStrLt : Option String → Option String → Bool
  | Option.none, Option.some _ => true
  | Option.none, Option.none => false
  | Option.some _, Option.none => false
  | Option.some a, Option.some b => strLt a b

/-- The `ORDER BY i.brand, i.item_name` of the report, on candidate pairs. -/
def candLe (x y : Item × ℚ) : Bool :=
  optStrLt x.1.brand y.1.brand ||
    (x.1.brand == y.1.brand && strLe x.1.item_name y.1.item_name)

/-- `candLe` as a decidable relation for sorting. -/
def candRel (x y : Item × ℚ) : Prop := candLe x y = true

instance : DecidableRel candRel := fun x y =>
  inferInstanceAs (Decidable (candLe x y = true))

/-- `SUM(bin.actual_qty)` of one item restricted to one warehouse. -/
def binQty (bins : List Bin) (item_code warehouse : String) : ℚ :=
  ((bins.filter (fun b => b.item_code == item_code && b.warehouse == warehouse)).map
    Bin.actual_qty).sum

/-- The candidate-item query of `get_wholesale_availability`: non-disabled,
stock-tracked items joined with their bins in the requested warehouse,
kept when the summed on-hand quantity is positive (`HAVING qty_available
> 0`; an item with no bin row in the warehouse sums to 0 and is likewise
excluded), each paired with that summed quantity, sorted by brand then
item name. -/
def candidateItems (items : List Item) (bins : List Bin) (warehouse : String) :
    List (Item × ℚ) :=
  List.insertionSort candRel
    ((items.filter (fun i => !i.disabled && i.is_stock_item &&
        decide (0 < binQty bins i.name warehouse))).map
      (fun i => (i, binQty bins i.name warehouse)))

/-- One row of the availability report. -/
structure AvailabilityRow where
  brand : String
  item_code : String
  item_name : String
  item_group : String
  wholesale_qty : ℚ
  last_offer_price : PyVal
  qty_available : ℚ
  on_hold : ℚ
  par_level : ℚ
  par_months : ℤ
  buffer_percent : ℚ

/-- The report returned by `get_wholesale_availability` (`data` plus the
summary fields). -/
structure Report where
  data : List AvailabilityRow
  total_items : ℕ
  warehouse : String
  months_lookback : ℤ
  months_par : ℤ
  buffer_percent : ℚ

/-- The whole database read by the report. -/
structure DB where
  items : List Item
  bins : List Bin
  salesInvoices : List SalesInvoice
  salesInvoiceItems : List SalesInvoiceItem
  salesOrders : List SalesOrder
  salesOrderItems : List SalesOrderItem
  quotations : List Quotation
  quotationItems : List QuotationItem

/-- The default of the `warehouse` parameter of
`get_wholesale_availability`: the value used when the caller omits it. -/
def defaultWarehouse : String := "Stores - SURGI"

/-- The row built for one candidate item, when its wholesale quantity is
positive (`if wholesale_qty > 0`); `None` otherwise (the row is dropped).
The `or` fallbacks on `brand`, `item_group` and `last_offer_price` follow
Python truthiness. -/
def availabilityRow (db : DB) (today lookback : ℤ) (months_par : ℤ)
    (buffer_percent : ℚ) (c : Item × ℚ) : Option AvailabilityRow :=
  let par_level := calculate_par_level db.salesInvoices db.salesInvoiceItems
    c.1.name today lookback
  let on_hold := calculate_on_hold_qty db.salesOrders db.salesOrderItems
    db.quotations db.quotationItems c.1.name
  let wholesale_qty := calculate_wholesale_qty c.2 on_hold par_level
    months_par buffer_percent
  if 0 < wholesale_qty then
    Option.some
      { brand := c.1.brand.getD ""
        item_code := c.1.name
        item_name := c.1.item_name
        item_group := c.1.item_group.getD ""
        wholesale_qty := pyRound0 wholesale_qty
        last_offer_price :=
          if pyTruthy c.1.custom_wholesale_offer_price then
            c.1.custom_wholesale_offer_price
          else PyVal.str "MO"
        qty_available := c.2
        on_hold := on_hold
        par_level := pyRound2 par_level
        par_months := months_par
        buffer_percent := buffer_percent }
  else Option.none

/-- `get_wholesale_availability`: candidate items in the requested
warehouse, one row per candidate with positive wholesale quantity, plus
the summary.  `today` models `datetime.now()`; the lookback date is
`today - months_lookback * 30` days. -/
def get_wholesale_availability (db : DB) (today : ℤ)
    (months_lookback months_par : ℤ) (buffer_percent : ℚ)
    (warehouse : String) : Report :=
  let lookback := today - months_lookback * 30
  let rows := (candidateItems db.items db.bins warehouse).filterMap
    (availabilityRow db today lookback months_par buffer_percent)
  { data := rows
    total_items := rows.length
    warehouse := warehouse
    months_lookback := months_lookback
    months_par := months_par
    buffer_percent := buffer_percent }

/-- One element of the `items_data` argument of `update_offer_prices`:
`item_code` may be missing (`None`). -/
structure UpdateRow where
  item_code : Option String
  offer_price : PyVal

/-- The result of `update_offer_prices`. -/
structure UpdateResult where
  success : Bool
  updated_count : ℕ
  errors : List (String × String)

/-- The per-row loop of `update_offer_prices`: a missing or empty
`item_code` is skipped; otherwise the write oracle is attempted, a raised
error is recorded keyed by the item code and the loop continues.  Returns
(count of successful writes, error list in row order). -/
def updateRowsLoop (write : String → PyVal → Except String Unit) :
    List UpdateRow → ℕ × List (String × String)
  | [] => (0, [])
  | r :: rs =>
      let rest := updateRowsLoop write rs
      match r.item_code with
      | Option.none => rest
      | Option.some code =>
          if code = "" then rest
          else
            match write code r.offer_price with
            | Except.ok _ => (rest.1 + 1, rest.2)
            | Except.error e => (rest.1, (code, e) :: rest.2)

/-- `update_offer_prices`: run the loop and report `success = True`
unconditionally together with the count and the collected errors. -/
def update_offer_prices (write : String → PyVal → Except String Unit)
    (rows : List UpdateRow) : UpdateResult :=
  let acc := updateRowsLoop write rows
  { success := true, updated_count := acc.1, errors := acc.2 }

/-! ## Example data shared by witnesses and counterexamples -/

/-- Example item A: enabled, stock-tracked, with a stored offer price of 0. -/
def exItemA : Item :=
  ⟨"A", "Alpha", Option.some "B1", Option.some "G", false, true, PyVal.num 0⟩

/-- Example item D: disabled (must never be reported). -/
def exItemD : Item :=
  ⟨"D", "Delta", Option.none, Option.none, true, true, PyVal.none⟩

/-- Example item Z: enabled but fully committed (zero wholesale surplus). -/
def exItemZ : Item :=
  ⟨"Z", "Zeta", Option.none, Option.none, false, true, PyVal.none⟩

/-- An example run date, 2025-05-01. -/
def exToday : ℤ := daysFromCivil ⟨2025, 5, 1⟩

/-- Example database for the report: A has 100 on hand, D has 40 but is
disabled, Z has 5 on hand and 5 outstanding on a posted sales order. -/
def exDB : DB where
  items := [exItemA, exItemD, exItemZ]
  bins := [⟨"A", "Stores - SURGI", 100⟩, ⟨"D", "Stores - SURGI", 40⟩,
    ⟨"Z", "Stores - SURGI", 5⟩]
  salesInvoices := []
  salesInvoiceItems := []
  salesOrders := [⟨"SO1", 1, "To Deliver and Bill"⟩]
  salesOrderItems := [⟨"SO1", "Z", 10, 5⟩]
  quotations := []
  quotationItems := []

/-- The single row produced by the report on `exDB` with parameters
`months_lookback = 3`, `months_par = 0`, `buffer_percent = 0`. -/
def exRowA : AvailabilityRow :=
  ⟨"B1", "A", "Alpha", "G", 100, PyVal.str "MO", 100, 0, 0, 0, 0⟩


/-- Database for the C4 counterexample: item X is enabled and
stock-tracked, with all of its stock (50 units) in warehouse WH-A and no
bin in the default warehouse. -/
def exDB4 : DB where
  items := [⟨"X", "Xylo", Option.none, Option.none, false, true, PyVal.none⟩]
  bins := [⟨"X", "WH-A", 50⟩]
  salesInvoices := []
  salesInvoiceItems := []
  salesOrders := []
  salesOrderItems := []
  quotations := []
  quotationItems := []

/-- A posted, non-return sales invoice used by the C5 example. -/
def exInv5 : SalesInvoice := ⟨"I1", 1, 10, false⟩

/-- C5 example line 1: qty 2, pre-tax amount 20. -/
def exLine5a : SalesInvoiceItem := ⟨"I1", "X", 2, 20, ""⟩

/-- C5 example line 2: qty 3, pre-tax amount 45. -/
def exLine5b : SalesInvoiceItem := ⟨"I1", "X", 3, 45, ""⟩

/-- Five posted, non-return invoices, one in each calendar month from
January to May 2025; the earliest (2025-01-31) is exactly 90 days before
2025-05-01, hence inside the months=3 lookback window. -/
def exInvs7 : List SalesInvoice :=
  [⟨"V1", 1, daysFromCivil ⟨2025, 1, 31⟩, false⟩,
   ⟨"V2", 1, daysFromCivil ⟨2025, 2, 15⟩, false⟩,
   ⟨"V3", 1, daysFromCivil ⟨2025, 3, 15⟩, false⟩,
   ⟨"V4", 1, daysFromCivil ⟨2025, 4, 15⟩, false⟩,
   ⟨"V5", 1, daysFromCivil ⟨2025, 5, 1⟩, false⟩]

/-- One sales line of item X on each invoice of `exInvs7`. -/
def exLines7 : List SalesInvoiceItem :=
  [⟨"V1", "X", 1, 10, ""⟩, ⟨"V2", "X", 1, 10, ""⟩, ⟨"V3", "X", 1, 10, ""⟩,
   ⟨"V4", "X", 1, 10, ""⟩, ⟨"V5", "X", 1, 10, ""⟩]

/-- Whether a row of `update_offer_prices` input leads to a successful
write: it has a non-empty item code and the write does not raise. -/
def updateOk (write : String → PyVal → Except String Unit) (r : UpdateRow) : Bool :=
  match r.item_code with
  | Option.none => false
  | Option.some code =>
      if code = "" then false
      else
        match write code r.offer_price with
        | Except.ok _ => true
        | Except.error _ => false

/-- The error entry a row of `update_offer_prices` input contributes:
only rows with a non-empty item code whose write raises produce one,
keyed by the item code. -/
def updateErr (write : String → PyVal → Except String Unit) (r : UpdateRow) :
    Option (String × String) :=
  match r.item_code with
  | Option.none => Option.none
  | Option.some code =>
      if code = "" then Option.none
      else
        match write code r.offer_price with
        | Except.ok _ => Option.none
        | Except.error e => Option.some (code, e)

/-- The C8 example write oracle: the write for item B raises, all other
writes succeed. -/
def exWrite : String → PyVal → Except String Unit :=
  fun code _ => if code = "B" then Except.error "bad" else Except.ok Unit.unit

/-- The C8 example input rows: a good row, a row with an empty item code,
and a row whose write fails. -/
def exRows8 : List UpdateRow :=
  [⟨Option.some "A", PyVal.num 10⟩, ⟨Option.some "", PyVal.num 5⟩,
   ⟨Option.some "B", PyVal.str "bad"⟩]

/-! ## Helper lemmas -/

/-- Summing a mapped filtered list equals summing with the excluded
elements replaced by 0. -/
lemma sum_map_filter_eq_sum_ite {α : Type} (l : List α) (p : α → Bool) (f : α → ℚ) :
    ((l.filter p).map f).sum = (l.map (fun a => if p a = true then f a else 0)).sum := by
  induction l with
  | nil => simp
  | cons a l ih =>
      by_cases h : p a = true <;> simp [List.filter_cons, h, ih]

/-- Banker rounding fixes integers. -/
lemma roundHalfEven_intCast (n : ℤ) : roundHalfEven ((n : ℤ) : ℚ) = n := by
  unfold roundHalfEven
  rw [Int.floor_intCast]
  norm_num

/-- Banker rounding preserves nonnegativity. -/
lemma roundHalfEven_nonneg {q : ℚ} (h : 0 ≤ q) : 0 ≤ roundHalfEven q := by
  unfold roundHalfEven
  have hf : (0 : ℤ) ≤ ⌊q⌋ := Int.floor_nonneg.mpr h
  split
  · exact hf
  · split
    · omega
    · split <;> omega

/-- `round(x, 0)` preserves nonnegativity. -/
lemma pyRound0_nonneg {q : ℚ} (h : 0 ≤ q) : 0 ≤ pyRound0 q := by
  unfold pyRound0
  exact_mod_cast roundHalfEven_nonneg h

/-- Membership in the candidate list of the report query. -/
lemma mem_candidateItems {items : List Item} {bins : List Bin} {w : String}
    {c : Item × ℚ} :
    c ∈ candidateItems items bins w ↔
      c.1 ∈ items ∧ c.1.disabled = false ∧ c.1.is_stock_item = true ∧
        0 < binQty bins c.1.name w ∧ c.2 = binQty bins c.1.name w := by
  unfold candidateItems
  rw [(List.perm_insertionSort _ _).mem_iff, List.mem_map]
  constructor
  · rintro ⟨i, hi, rfl⟩
    rw [List.mem_filter] at hi
    obtain ⟨hmem, hp⟩ := hi
    simp only [Bool.and_eq_true, Bool.not_eq_true', decide_eq_true_eq] at hp
    exact ⟨hmem, hp.1.1, hp.1.2, hp.2, rfl⟩
  · rintro ⟨hmem, hd, hs, hq, hc2⟩
    refine ⟨c.1, ?_, ?_⟩
    · rw [List.mem_filter]
      refine ⟨hmem, ?_⟩
      simp only [Bool.and_eq_true, Bool.not_eq_true', decide_eq_true_eq]
      exact ⟨⟨hd, hs⟩, hq⟩
    · obtain ⟨c1, c2⟩ := c
      simp only at hc2 ⊢
      rw [hc2]

/-- Membership in the data list of the report. -/
lemma mem_report_data {db : DB} {today ml mp : ℤ} {bp : ℚ} {w : String}
    {r : AvailabilityRow} :
    r ∈ (get_wholesale_availability db today ml mp bp w).data ↔
      ∃ c ∈ candidateItems db.items db.bins w,
        availabilityRow db today (today - ml * 30) mp bp c = Option.some r := by
  unfold get_wholesale_availability
  simp [List.mem_filterMap]

/-- What a produced report row must look like. -/
lemma availabilityRow_inv {db : DB} {today lookback mp : ℤ} {bp : ℚ}
    {c : Item × ℚ} {r : AvailabilityRow}
    (h : availabilityRow db today lookback mp bp c = Option.some r) :
    0 < calculate_wholesale_qty c.2
        (calculate_on_hold_qty db.salesOrders db.salesOrderItems
          db.quotations db.quotationItems c.1.name)
        (calculate_par_level db.salesInvoices db.salesInvoiceItems
          c.1.name today lookback) mp bp ∧
      r.item_code = c.1.name ∧ r.qty_available = c.2 ∧
      r.wholesale_qty = pyRound0 (calculate_wholesale_qty c.2
        (calculate_on_hold_qty db.salesOrders db.salesOrderItems
          db.quotations db.quotationItems c.1.name)
        (calculate_par_level db.salesInvoices db.salesInvoiceItems
          c.1.name today lookback) mp bp) ∧
      r.last_offer_price =
        (if pyTruthy c.1.custom_wholesale_offer_price then
          c.1.custom_wholesale_offer_price else PyVal.str "MO") := by
  unfold availabilityRow at h
  by_cases hpos : 0 < calculate_wholesale_qty c.2
      (calculate_on_hold_qty db.salesOrders db.salesOrderItems
        db.quotations db.quotationItems c.1.name)
      (calculate_par_level db.salesInvoices db.salesInvoiceItems
        c.1.name today lookback) mp bp
  · rw [if_pos hpos] at h
    obtain rfl : _ = r := Option.some.inj h
    exact ⟨hpos, rfl, rfl, rfl, rfl⟩
  · rw [if_neg hpos] at h
    exact absurd h (Option.noConfusion)

/-! ## C1 -/

/-- C1: for all inputs `calculate_wholesale_qty` computes
`reserve = par_level * months_par * (1 + buffer_percent / 100)` and
`result = qty_available - on_hold - reserve` (the returned value being
`result` clamped below at 0); in particular
`calculate_wholesale_qty 100 10 5 6 10 = 57`. -/
theorem calculate_wholesale_qty_formula :
    (∀ (qty_available on_hold par_level : ℚ) (months_par : ℤ) (buffer_percent : ℚ),
      calculate_wholesale_qty qty_available on_hold par_level months_par buffer_percent =
        max 0 (qty_available - on_hold -
          par_level * ((months_par : ℤ) : ℚ) * (1 + buffer_percent / 100))) ∧
    calculate_wholesale_qty 100 10 5 6 10 = 57 := by
  constructor
  · intro qa oh pl mp bp
    rfl
  · norm_num [calculate_wholesale_qty]

/-! ## C2 -/

/-- C2 counterexample: there is no signed "Policy B": at the example input
of the claim itself the function returns 0, never -20 (the return value is
clamped and no configuration of the caller changes that). -/
theorem calculate_wholesale_qty_no_policyB :
    calculate_wholesale_qty 10 0 5 6 0 = 0 ∧
      calculate_wholesale_qty 10 0 5 6 0 ≠ -20 := by
  have h : calculate_wholesale_qty 10 0 5 6 0 = 0 := by
    norm_num [calculate_wholesale_qty]
  refine ⟨h, ?_⟩
  rw [h]
  norm_num

/-- C2 amended: only the clamped policy (Policy A) is implemented:
`calculate_wholesale_qty` always returns `max 0 result` (hence is never
negative, and returns 0, not -20, on the example), and the report keeps a
row only when the wholesale quantity is positive — an item whose computed
wholesale quantity is non-positive gets no row. -/
theorem wholesale_policy_clamped :
    (∀ (qty_available on_hold par_level : ℚ) (months_par : ℤ) (buffer_percent : ℚ),
      0 ≤ calculate_wholesale_qty qty_available on_hold par_level
        months_par buffer_percent) ∧
    calculate_wholesale_qty 10 0 5 6 0 = 0 ∧
    (∀ (db : DB) (today ml mp : ℤ) (bp : ℚ) (w : String),
      ∀ r ∈ (get_wholesale_availability db today ml mp bp w).data,
        0 ≤ r.wholesale_qty) ∧
    (∀ (db : DB) (today ml mp : ℤ) (bp : ℚ) (w : String) (item : Item),
      item ∈ db.items → (db.items.map Item.name).Nodup →
      calculate_wholesale_qty (binQty db.bins item.name w)
        (calculate_on_hold_qty db.salesOrders db.salesOrderItems
          db.quotations db.quotationItems item.name)
        (calculate_par_level db.salesInvoices db.salesInvoiceItems
          item.name today (today - ml * 30)) mp bp ≤ 0 →
      ∀ r ∈ (get_wholesale_availability db today ml mp bp w).data,
        r.item_code ≠ item.name) := by
  refine ⟨?_, ?_, ?_, ?_⟩
  · intro qa oh pl mp bp
    exact le_max_left 0 _
  · norm_num [calculate_wholesale_qty]
  · intro db today ml mp bp w r hr
    rw [mem_report_data] at hr
    obtain ⟨c, _, hrow⟩ := hr
    obtain ⟨hpos, _, _, hwq, _⟩ := availabilityRow_inv hrow
    rw [hwq]
    exact pyRound0_nonneg (le_of_lt hpos)
  · intro db today ml mp bp w item hmem hnodup hle r hr hname
    rw [mem_report_data] at hr
    obtain ⟨c, hc, hrow⟩ := hr
    obtain ⟨hpos, hcode, _, _, _⟩ := availabilityRow_inv hrow
    rw [mem_candidateItems] at hc
    obtain ⟨hc1, _, _, _, hc2⟩ := hc
    have hci : c.1 = item :=
      List.inj_on_of_nodup_map hnodup hc1 hmem (by rw [← hcode, hname])
    rw [hc2, hci] at hpos
    exact absurd hpos (not_lt.mpr hle)

/-- The report on `exDB` (lookback 3 months, months_par 0, buffer 0, default
warehouse) evaluates to the single row `exRowA`: item D is excluded as
disabled and item Z is dropped because its wholesale quantity is 0. -/
lemma exReport_data :
    (get_wholesale_availability exDB exToday 3 0 0 defaultWarehouse).data = [exRowA] := by
  simp [get_wholesale_availability, candidateItems, binQty, exDB, defaultWarehouse,
    exItemA, exItemD, exItemZ, availabilityRow, calculate_par_level, calculate_on_hold_qty,
    calculate_wholesale_qty, tableJoin, List.insertionSort, List.orderedInsert,
    candRel, candLe, optStrLt, strLt, strLe, charListLt, List.filter_cons, List.filterMap_cons,
    pyRound0, pyRound2, roundHalfEven, pyTruthy, exRowA, soClosedStatuses]
  norm_num

/-- C2 witness: on the example database, the produced row has a
nonnegative wholesale quantity, and item Z — whose computed wholesale
quantity is 0 — got no row. -/
theorem wholesale_policy_clamped_witness :
    (0 : ℚ) ≤ exRowA.wholesale_qty ∧ exRowA.item_code ≠ "Z" := by
  constructor
  · exact wholesale_policy_clamped.2.2.1 exDB exToday 3 0 0 defaultWarehouse exRowA
      (by rw [exReport_data]; exact List.mem_singleton_self _)
  · have h := wholesale_policy_clamped.2.2.2 exDB exToday 3 0 0 defaultWarehouse exItemZ
      (by simp [exDB]) (by simp [exDB, exItemA, exItemD, exItemZ])
      (by simp [calculate_wholesale_qty, calculate_on_hold_qty, calculate_par_level,
            binQty, exDB, exItemZ, defaultWarehouse, tableJoin, soClosedStatuses,
            List.filter_cons]
          norm_num)
      exRowA (by rw [exReport_data]; exact List.mem_singleton_self _)
    simpa [exItemZ] using h

/-! ## C3 -/

/-- C3: the month divisor of `calculate_par_level` is never zero; for a
lookback date in the same calendar month as today it is 1; and the
function returns the total sold quantity (over posted, non-return lines
of the item dated on/after the lookback date) divided by this divisor. -/
theorem par_level_divisor_never_zero :
    ∀ (invs : List SalesInvoice) (lines : List SalesInvoiceItem) (code : String)
      (today lookback : ℤ),
      monthsDivisor today lookback ≠ 0 ∧
      ((civilFromDays today).year = (civilFromDays lookback).year →
        (civilFromDays today).month = (civilFromDays lookback).month →
        monthsDivisor today lookback = 1) ∧
      calculate_par_level invs lines code today lookback =
        ((tableJoin invs SalesInvoice.name SalesInvoiceItem.parent lines).map
          (fun p => if p.1.item_code = code ∧ p.2.docstatus = 1 ∧
              lookback ≤ p.2.posting_date ∧ p.2.is_return = false
            then p.1.qty else 0)).sum /
          ((monthsDivisor today lookback : ℤ) : ℚ) := by
  intro invs lines code today lookback
  refine ⟨?_, ?_, ?_⟩
  · simp only [monthsDivisor]
    split
    · exact one_ne_zero
    · next h => exact h
  · intro hy hm
    simp only [monthsDivisor, hy, hm]
    simp
  · simp only [calculate_par_level]
    rw [sum_map_filter_eq_sum_ite]
    congr 1
    congr 1
    apply List.map_congr_left
    intro p _
    refine if_congr ?_ rfl rfl
    simp only [Bool.and_eq_true, beq_iff_eq, decide_eq_true_eq, Bool.not_eq_true']
    tauto

/-- C3 witness: for a lookback date (2025-05-01) in the same calendar
month as today (2025-05-10), the divisor is 1, in particular nonzero. -/
theorem par_level_divisor_never_zero_witness :
    monthsDivisor (daysFromCivil ⟨2025, 5, 10⟩) (daysFromCivil ⟨2025, 5, 1⟩) ≠ 0 ∧
    monthsDivisor (daysFromCivil ⟨2025, 5, 10⟩) (daysFromCivil ⟨2025, 5, 1⟩) = 1 :=
  ⟨(par_level_divisor_never_zero [] [] "X"
      (daysFromCivil ⟨2025, 5, 10⟩) (daysFromCivil ⟨2025, 5, 1⟩)).1,
   (par_level_divisor_never_zero [] [] "X"
      (daysFromCivil ⟨2025, 5, 10⟩) (daysFromCivil ⟨2025, 5, 1⟩)).2.1
      (by decide) (by decide)⟩

/-! ## C4 -/

/-- C4 counterexample: with the warehouse parameter omitted (so the
default "Stores - SURGI" applies), an enabled stock item whose 50 units
of stock all sit in another warehouse produces no report row at all,
although its on-hand quantity summed across all warehouses is 50 > 0 —
the on-hand quantity is not summed across all warehouses. -/
theorem warehouse_omitted_not_summed :
    (get_wholesale_availability exDB4 exToday 3 6 10 defaultWarehouse).data = [] ∧
    ((exDB4.bins.filter (fun b => b.item_code == "X")).map Bin.actual_qty).sum = 50 ∧
    ((0 : ℚ) < 50) := by
  refine ⟨?_, ?_, by norm_num⟩
  · rfl
  · simp [exDB4]

/-- C4 amended: the warehouse filter always restricts to exactly one
warehouse; when the parameter is omitted, the default "Stores - SURGI"
is used (never a sum across all warehouses).  The on-hand quantity of
every report row is the sum of the bin quantities of its item in that one warehouse
only, and the report echoes the warehouse it used. -/
theorem report_single_warehouse :
    defaultWarehouse = "Stores - SURGI" ∧
    (∀ (db : DB) (today ml mp : ℤ) (bp : ℚ) (w : String),
      (get_wholesale_availability db today ml mp bp w).warehouse = w) ∧
    (∀ (db : DB) (today ml mp : ℤ) (bp : ℚ) (w : String),
      ∀ r ∈ (get_wholesale_availability db today ml mp bp w).data,
        r.qty_available =
          ((db.bins.filter
            (fun b => b.item_code == r.item_code && b.warehouse == w)).map
            Bin.actual_qty).sum) := by
  refine ⟨rfl, fun db today ml mp bp w => rfl, ?_⟩
  intro db today ml mp bp w r hr
  rw [mem_report_data] at hr
  obtain ⟨c, hc, hrow⟩ := hr
  obtain ⟨_, hcode, hqty, _, _⟩ := availabilityRow_inv hrow
  rw [mem_candidateItems] at hc
  obtain ⟨_, _, _, _, hc2⟩ := hc
  rw [hqty, hc2, hcode]
  rfl

/-- C4 witness: on the example database, the on-hand quantity of the
produced row is exactly its bin total in the default warehouse. -/
theorem report_single_warehouse_witness :
    exRowA.qty_available =
      ((exDB.bins.filter
        (fun b => b.item_code == exRowA.item_code &&
          b.warehouse == defaultWarehouse)).map Bin.actual_qty).sum :=
  report_single_warehouse.2.2 exDB exToday 3 0 0 defaultWarehouse exRowA
    (by rw [exReport_data]; exact List.mem_singleton_self _)

/-! ## C9 -/

/-- C9: a disabled or non-stock-tracked item never gets a row in the
availability report, whatever its inventory or sales data (item codes
are assumed unique, as they are the primary key of the Item table). -/
theorem disabled_or_nonstock_never_reported :
    ∀ (db : DB) (today ml mp : ℤ) (bp : ℚ) (w : String) (item : Item),
      item ∈ db.items →
      item.disabled = true ∨ item.is_stock_item = false →
      (db.items.map Item.name).Nodup →
      ∀ r ∈ (get_wholesale_availability db today ml mp bp w).data,
        r.item_code ≠ item.name := by
  intro db today ml mp bp w item hmem hbad hnodup r hr hname
  rw [mem_report_data] at hr
  obtain ⟨c, hc, hrow⟩ := hr
  obtain ⟨_, hcode, _, _, _⟩ := availabilityRow_inv hrow
  rw [mem_candidateItems] at hc
  obtain ⟨hc1, hdis, hstock, _, _⟩ := hc
  have hci : c.1 = item :=
    List.inj_on_of_nodup_map hnodup hc1 hmem (by rw [← hcode, hname])
  rw [hci] at hdis hstock
  rcases hbad with hb | hb
  · rw [hdis] at hb
    exact Bool.noConfusion hb
  · rw [hstock] at hb
    exact Bool.noConfusion hb

/-- C9 witness: on the example database the disabled item D (40 units on
hand) got no row: the one produced row is not for D. -/
theorem disabled_or_nonstock_never_reported_witness : exRowA.item_code ≠ "D" := by
  have h := disabled_or_nonstock_never_reported exDB exToday 3 0 0 defaultWarehouse
    exItemD (by simp [exDB]) (Or.inl rfl) (by simp [exDB, exItemA, exItemD, exItemZ])
    exRowA (by rw [exReport_data]; exact List.mem_singleton_self _)
  simpa [exItemD] using h

/-! ## C10 -/

/-- C10: in every report row, `last_offer_price` equals the stored
`custom_wholesale_offer_price` of the item when that value is truthy and the sentinel
string "MO" otherwise; a stored 0, empty string, or NULL is all falsy,
hence reported as "MO". -/
theorem last_offer_price_mo_sentinel :
    (∀ (db : DB) (today ml mp : ℤ) (bp : ℚ) (w : String),
      ∀ r ∈ (get_wholesale_availability db today ml mp bp w).data,
      ∀ item ∈ db.items, (db.items.map Item.name).Nodup →
        item.name = r.item_code →
        r.last_offer_price =
          (if pyTruthy item.custom_wholesale_offer_price then
            item.custom_wholesale_offer_price else PyVal.str "MO")) ∧
    pyTruthy (PyVal.num 0) = false ∧
    pyTruthy (PyVal.str "") = false ∧
    pyTruthy PyVal.none = false := by
  refine ⟨?_, by simp [pyTruthy], by simp [pyTruthy], rfl⟩
  intro db today ml mp bp w r hr item hitem hnodup hname
  rw [mem_report_data] at hr
  obtain ⟨c, hc, hrow⟩ := hr
  obtain ⟨_, hcode, _, _, hprice⟩ := availabilityRow_inv hrow
  rw [mem_candidateItems] at hc
  obtain ⟨hc1, _, _, _, _⟩ := hc
  have hci : c.1 = item :=
    List.inj_on_of_nodup_map hnodup hc1 hitem (by rw [hname, hcode])
  rw [hprice, hci]

/-- C10 witness: item A stores an offer price of 0 (falsy), and its row
reports the sentinel: the `last_offer_price` of the row is the if-expression
of the theorem, which evaluates to "MO". -/
theorem last_offer_price_mo_sentinel_witness :
    exRowA.last_offer_price =
      (if pyTruthy exItemA.custom_wholesale_offer_price then
        exItemA.custom_wholesale_offer_price else PyVal.str "MO") ∧
    exRowA.last_offer_price = PyVal.str "MO" := by
  have h := last_offer_price_mo_sentinel.1 exDB exToday 3 0 0 defaultWarehouse exRowA
    (by rw [exReport_data]; exact List.mem_singleton_self _) exItemA (by simp [exDB])
    (by simp [exDB, exItemA, exItemD, exItemZ]) rfl
  exact ⟨h, rfl⟩

/-! ## C5 -/

/-- C5: `calculate_avg_sale_price` returns the quantity-weighted per-unit
price SUM(pre-tax line amount) / SUM(qty) over posted, non-return lines
with positive quantity dated on/after the lookback date (optionally
restricted to one warehouse), 0 when the total quantity is 0; on two
lines (qty 2, amount 20) and (qty 3, amount 45) it returns 13, not the
naive per-line rate average 25/2. -/
theorem calculate_avg_sale_price_weighted :
    (∀ (invs : List SalesInvoice) (lines : List SalesInvoiceItem) (code : String)
      (lookback : ℤ),
      calculate_avg_sale_price invs lines code lookback Option.none =
        (if 0 < ((tableJoin invs SalesInvoice.name SalesInvoiceItem.parent lines).map
            (fun p => if p.1.item_code = code ∧ p.2.docstatus = 1 ∧
              lookback ≤ p.2.posting_date ∧ p.2.is_return = false ∧ 0 < p.1.qty
              then p.1.qty else 0)).sum then
          ((tableJoin invs SalesInvoice.name SalesInvoiceItem.parent lines).map
            (fun p => if p.1.item_code = code ∧ p.2.docstatus = 1 ∧
              lookback ≤ p.2.posting_date ∧ p.2.is_return = false ∧ 0 < p.1.qty
              then p.1.base_amount else 0)).sum /
          ((tableJoin invs SalesInvoice.name SalesInvoiceItem.parent lines).map
            (fun p => if p.1.item_code = code ∧ p.2.docstatus = 1 ∧
              lookback ≤ p.2.posting_date ∧ p.2.is_return = false ∧ 0 < p.1.qty
              then p.1.qty else 0)).sum
        else 0)) ∧
    (∀ (invs : List SalesInvoice) (lines : List SalesInvoiceItem) (code : String)
      (lookback : ℤ) (w : String), w ≠ "" →
      calculate_avg_sale_price invs lines code lookback (Option.some w) =
        (if 0 < ((tableJoin invs SalesInvoice.name SalesInvoiceItem.parent lines).map
            (fun p => if p.1.item_code = code ∧ p.2.docstatus = 1 ∧
              lookback ≤ p.2.posting_date ∧ p.2.is_return = false ∧ 0 < p.1.qty ∧
              p.1.warehouse = w then p.1.qty else 0)).sum then
          ((tableJoin invs SalesInvoice.name SalesInvoiceItem.parent lines).map
            (fun p => if p.1.item_code = code ∧ p.2.docstatus = 1 ∧
              lookback ≤ p.2.posting_date ∧ p.2.is_return = false ∧ 0 < p.1.qty ∧
              p.1.warehouse = w then p.1.base_amount else 0)).sum /
          ((tableJoin invs SalesInvoice.name SalesInvoiceItem.parent lines).map
            (fun p => if p.1.item_code = code ∧ p.2.docstatus = 1 ∧
              lookback ≤ p.2.posting_date ∧ p.2.is_return = false ∧ 0 < p.1.qty ∧
              p.1.warehouse = w then p.1.qty else 0)).sum
        else 0)) ∧
    calculate_avg_sale_price [exInv5] [exLine5a, exLine5b] "X" 0 Option.none = 13 ∧
    ((20 : ℚ) / 2 + 45 / 3) / 2 = 25 / 2 ∧
    (13 : ℚ) ≠ 25 / 2 := by
  refine ⟨?_, ?_, ?_, by norm_num, by norm_num⟩
  · intro invs lines code lookback
    simp only [calculate_avg_sale_price]
    rw [sum_map_filter_eq_sum_ite, sum_map_filter_eq_sum_ite]
    have key : ∀ f : SalesInvoiceItem × SalesInvoice → ℚ,
        ((tableJoin invs SalesInvoice.name SalesInvoiceItem.parent lines).map
          (fun a => if (a.1.item_code == code && a.2.docstatus == 1 &&
            decide (lookback ≤ a.2.posting_date) && !a.2.is_return &&
            decide (0 < a.1.qty)) = true then f a else 0)) =
        ((tableJoin invs SalesInvoice.name SalesInvoiceItem.parent lines).map
          (fun p => if p.1.item_code = code ∧ p.2.docstatus = 1 ∧
            lookback ≤ p.2.posting_date ∧ p.2.is_return = false ∧ 0 < p.1.qty
            then f p else 0)) := by
      intro f
      apply List.map_congr_left
      intro p _
      refine if_congr ?_ rfl rfl
      simp only [Bool.and_eq_true, beq_iff_eq, decide_eq_true_eq, Bool.not_eq_true']
      tauto
    rw [key (fun p => p.1.base_amount), key (fun p => p.1.qty)]
  · intro invs lines code lookback w hw
    simp only [calculate_avg_sale_price]
    rw [if_neg hw]
    rw [sum_map_filter_eq_sum_ite, sum_map_filter_eq_sum_ite]
    have key : ∀ f : SalesInvoiceItem × SalesInvoice → ℚ,
        ((tableJoin invs SalesInvoice.name SalesInvoiceItem.parent lines).map
          (fun a => if (a.1.item_code == code && a.2.docstatus == 1 &&
            decide (lookback ≤ a.2.posting_date) && !a.2.is_return &&
            decide (0 < a.1.qty) && a.1.warehouse == w) = true then f a else 0)) =
        ((tableJoin invs SalesInvoice.name SalesInvoiceItem.parent lines).map
          (fun p => if p.1.item_code = code ∧ p.2.docstatus = 1 ∧
            lookback ≤ p.2.posting_date ∧ p.2.is_return = false ∧ 0 < p.1.qty ∧
            p.1.warehouse = w then f p else 0)) := by
      intro f
      apply List.map_congr_left
      intro p _
      refine if_congr ?_ rfl rfl
      simp only [Bool.and_eq_true, beq_iff_eq, decide_eq_true_eq, Bool.not_eq_true']
      tauto
    rw [key (fun p => p.1.base_amount), key (fun p => p.1.qty)]
  · simp [calculate_avg_sale_price, tableJoin, exInv5, exLine5a, exLine5b,
      List.filter_cons]
    norm_num

/-- C5 witness: the warehouse-restricted form applied at warehouse
"WH-Q" (nonempty, matching no line) evaluates to 0. -/
theorem calculate_avg_sale_price_weighted_witness :
    calculate_avg_sale_price [exInv5] [exLine5a, exLine5b] "X" 0
      (Option.some "WH-Q") = 0 := by
  have h := calculate_avg_sale_price_weighted.2.1 [exInv5] [exLine5a, exLine5b]
    "X" 0 "WH-Q" (by decide)
  rw [h]
  simp [tableJoin, exInv5, exLine5a, exLine5b, List.filter_cons]

/-! ## C6 -/

/-- C6: `calculate_on_hold_qty` is the sum of outstanding sales-order
quantity (ordered minus delivered, only where positive, over posted
orders not Closed/Completed/Cancelled) plus full quotation line quantity
(over posted quotations not Lost/Cancelled/Ordered); a sales-order line
with `delivered_qty ≥ qty` contributes nothing, and so does a line all of
whose parent orders are in a terminal status. -/
theorem calculate_on_hold_qty_spec :
    (∀ (orders : List SalesOrder) (soLines : List SalesOrderItem)
      (quots : List Quotation) (quotLines : List QuotationItem) (code : String),
      calculate_on_hold_qty orders soLines quots quotLines code =
        ((tableJoin orders SalesOrder.name SalesOrderItem.parent soLines).map
          (fun p => if p.1.item_code = code ∧ p.2.docstatus = 1 ∧
              p.2.status ∉ soClosedStatuses ∧ 0 < p.1.qty - p.1.delivered_qty
            then p.1.qty - p.1.delivered_qty else 0)).sum +
        ((tableJoin quots Quotation.name QuotationItem.parent quotLines).map
          (fun p => if p.1.item_code = code ∧ p.2.docstatus = 1 ∧
              p.2.status ∉ quotClosedStatuses
            then p.1.qty else 0)).sum) ∧
    (∀ (orders : List SalesOrder) (soLines : List SalesOrderItem)
      (quots : List Quotation) (quotLines : List QuotationItem) (code : String)
      (l : SalesOrderItem), l.qty ≤ l.delivered_qty →
      calculate_on_hold_qty orders (l :: soLines) quots quotLines code =
        calculate_on_hold_qty orders soLines quots quotLines code) ∧
    (∀ (orders : List SalesOrder) (soLines : List SalesOrderItem)
      (quots : List Quotation) (quotLines : List QuotationItem) (code : String)
      (l : SalesOrderItem),
      (∀ o ∈ orders, o.name = l.parent → o.status ∈ soClosedStatuses) →
      calculate_on_hold_qty orders (l :: soLines) quots quotLines code =
        calculate_on_hold_qty orders soLines quots quotLines code) := by
  refine ⟨?_, ?_, ?_⟩
  · intro orders soLines quots quotLines code
    simp only [calculate_on_hold_qty]
    rw [sum_map_filter_eq_sum_ite, sum_map_filter_eq_sum_ite]
    congr 1
    · congr 1
      apply List.map_congr_left
      intro p _
      refine if_congr ?_ rfl rfl
      simp only [Bool.and_eq_true, beq_iff_eq, decide_eq_true_eq, Bool.not_eq_true']
      simp [soClosedStatuses]
      tauto
    · congr 1
      apply List.map_congr_left
      intro p _
      refine if_congr ?_ rfl rfl
      simp only [Bool.and_eq_true, beq_iff_eq, decide_eq_true_eq, Bool.not_eq_true']
      simp [quotClosedStatuses]
      tauto
  · intro orders soLines quots quotLines code l h
    simp only [calculate_on_hold_qty, tableJoin]
    congr 1
    rw [List.filter_append, List.map_append, List.sum_append]
    have hnil : List.filter
        (fun p : SalesOrderItem × SalesOrder => p.1.item_code == code &&
          p.2.docstatus == 1 && !(soClosedStatuses.contains p.2.status) &&
          decide (0 < p.1.qty - p.1.delivered_qty))
        ((orders.filter (fun p => p.name == l.parent)).map (fun p => (l, p))) = [] := by
      rw [List.filter_eq_nil_iff]
      intro a ha
      rw [List.mem_map] at ha
      obtain ⟨o, _, rfl⟩ := ha
      simp only [Bool.and_eq_true, decide_eq_true_eq, not_and]
      intro _ hcon
      exact absurd hcon (not_lt.mpr (sub_nonpos.mpr h))
    rw [hnil]
    simp
  · intro orders soLines quots quotLines code l h
    simp only [calculate_on_hold_qty, tableJoin]
    congr 1
    rw [List.filter_append, List.map_append, List.sum_append]
    have hnil : List.filter
        (fun p : SalesOrderItem × SalesOrder => p.1.item_code == code &&
          p.2.docstatus == 1 && !(soClosedStatuses.contains p.2.status) &&
          decide (0 < p.1.qty - p.1.delivered_qty))
        ((orders.filter (fun p => p.name == l.parent)).map (fun p => (l, p))) = [] := by
      rw [List.filter_eq_nil_iff]
      intro a ha
      rw [List.mem_map] at ha
      obtain ⟨o, ho, rfl⟩ := ha
      rw [List.mem_filter] at ho
      have hst : o.status ∈ soClosedStatuses := h o ho.1 (beq_iff_eq.mp ho.2)
      have hcE : soClosedStatuses.contains o.status = true := by
        simpa using List.elem_eq_true_of_mem hst
      simp [hcE]
      intro _ _ hns
      exact absurd hst hns
    rw [hnil]
    simp

/-- C6 witness: a line delivered in full (qty 5, delivered 5) on an open
posted order contributes nothing, and a line on a Closed posted order
contributes nothing. -/
theorem calculate_on_hold_qty_spec_witness :
    calculate_on_hold_qty [⟨"SO9", 1, "To Deliver"⟩] [⟨"SO9", "X", 5, 5⟩] [] [] "X" =
      calculate_on_hold_qty [⟨"SO9", 1, "To Deliver"⟩] [] [] [] "X" ∧
    calculate_on_hold_qty [⟨"SO8", 1, "Closed"⟩] [⟨"SO8", "X", 5, 0⟩] [] [] "X" =
      calculate_on_hold_qty [⟨"SO8", 1, "Closed"⟩] [] [] [] "X" := by
  constructor
  · exact calculate_on_hold_qty_spec.2.1 [⟨"SO9", 1, "To Deliver"⟩] [] [] []
      "X" ⟨"SO9", "X", 5, 5⟩ (by norm_num)
  · refine calculate_on_hold_qty_spec.2.2 [⟨"SO8", 1, "Closed"⟩] [] [] []
      "X" ⟨"SO8", "X", 5, 0⟩ ?_
    intro o ho _
    rw [List.mem_singleton] at ho
    rw [ho]
    simp [soClosedStatuses]

/-! ## C7 -/

set_option maxRecDepth 4000 in
/-- C7 counterexample: with `today = 2025-05-01` and `months = 3` the
lookback window is the 90 days starting 2025-01-31, which touches five
calendar months; five sales lines, one in each of those months, produce
five buckets — more than `months = 3`. -/
theorem sales_history_more_than_months :
    (get_item_sales_history exInvs7 exLines7 "X"
      (daysFromCivil ⟨2025, 5, 1⟩) 3).length = 5 ∧
    ¬ ((get_item_sales_history exInvs7 exLines7 "X"
      (daysFromCivil ⟨2025, 5, 1⟩) 3).length ≤ 3) := by
  constructor
  · decide
  · decide

/-- C7 amended: `get_item_sales_history` returns one bucket per distinct
calendar month among the posted, non-return lines of the item dated
on/after `today - months * 30` days, ordered strictly descending by
month, with months having no such line omitted; the number of buckets is
the number of those distinct months — which can exceed `months`, since
the window spans more than `months` calendar months. -/
theorem sales_history_buckets_ordered :
    ∀ (invs : List SalesInvoice) (lines : List SalesInvoiceItem) (code : String)
      (today months : ℤ),
      ((get_item_sales_history invs lines code today months).map
        HistoryBucket.month).Pairwise (fun a b => b < a) ∧
      (∀ k ∈ (get_item_sales_history invs lines code today months).map
          HistoryBucket.month,
        k ∈ (salesHistoryLines invs lines code today months).map
          (fun p => monthKey p.2.posting_date)) ∧
      (get_item_sales_history invs lines code today months).length =
        ((salesHistoryLines invs lines code today months).map
          (fun p => monthKey p.2.posting_date)).dedup.length := by
  intro invs lines code today months
  have hmap : (get_item_sales_history invs lines code today months).map
      HistoryBucket.month =
      List.insertionSort monthGe
        ((salesHistoryLines invs lines code today months).map
          (fun p => monthKey p.2.posting_date)).dedup := by
    simp only [get_item_sales_history]
    rw [List.map_map]
    have hid : ∀ l : List ℤ, List.map
        (HistoryBucket.month ∘ fun k =>
          ({ month := k
             qty_sold := (((salesHistoryLines invs lines code today months).filter
               (fun p => monthKey p.2.posting_date == k)).map (fun p => p.1.qty)).sum
             invoice_count := ((((salesHistoryLines invs lines code today months).filter
               (fun p => monthKey p.2.posting_date == k)).map
                 (fun p => p.2.name)).dedup).length } : HistoryBucket)) l = l := by
      intro l
      induction l with
      | nil => rfl
      | cons a l ih => simp [ih]
    exact hid _
  have hperm := List.perm_insertionSort monthGe
    ((salesHistoryLines invs lines code today months).map
      (fun p => monthKey p.2.posting_date)).dedup
  refine ⟨?_, ?_, ?_⟩
  · rw [hmap]
    have hsorted : List.Sorted monthGe (List.insertionSort monthGe
        ((salesHistoryLines invs lines code today months).map
          (fun p => monthKey p.2.posting_date)).dedup) :=
      List.sorted_insertionSort monthGe _
    have hnd : (List.insertionSort monthGe
        ((salesHistoryLines invs lines code today months).map
          (fun p => monthKey p.2.posting_date)).dedup).Nodup :=
      hperm.nodup_iff.mpr (List.nodup_dedup _)
    exact (hsorted.and hnd).imp
      (fun hab => lt_of_le_of_ne hab.1 (Ne.symm hab.2))
  · intro k hk
    rw [hmap] at hk
    have hk2 := hperm.mem_iff.mp hk
    rw [List.mem_dedup] at hk2
    exact hk2
  · have hlen : (get_item_sales_history invs lines code today months).length =
        ((get_item_sales_history invs lines code today months).map
          HistoryBucket.month).length := (List.length_map _ _).symm
    rw [hlen, hmap, hperm.length_eq]

/-- C7 witness: on the five-line example, the most recent bucket month
(2025-05, key 24305) is the month of an actual qualifying sales line. -/
theorem sales_history_buckets_ordered_witness :
    (24305 : ℤ) ∈ (salesHistoryLines exInvs7 exLines7 "X"
      (daysFromCivil ⟨2025, 5, 1⟩) 3).map (fun p => monthKey p.2.posting_date) :=
  (sales_history_buckets_ordered exInvs7 exLines7 "X"
    (daysFromCivil ⟨2025, 5, 1⟩) 3).2.1 24305 (by decide)

/-! ## C8 -/

/-- The loop of `update_offer_prices` counts exactly the successfully
written rows and collects exactly the error entries, in row order. -/
lemma updateRowsLoop_eq (write : String → PyVal → Except String Unit)
    (rows : List UpdateRow) :
    updateRowsLoop write rows =
      (rows.countP (updateOk write), rows.filterMap (updateErr write)) := by
  induction rows with
  | nil => rfl
  | cons r rs ih =>
      obtain ⟨oc, op⟩ := r
      simp only [updateRowsLoop, ih, updateOk, updateErr, List.countP_cons,
        List.filterMap_cons]
      cases oc with
      | none => simp
      | some code =>
          by_cases hc : code = ""
          · simp [hc]
          · cases hw : write code op with
            | ok u => simp [hc, hw]
            | error e => simp [hc, hw]

/-- C8: `update_offer_prices` always reports `success = true`; its
`updated_count` is the number of rows with a non-empty item code whose
write succeeded; its `errors` list holds exactly the rows with a
non-empty item code whose write raised, keyed by item code, in row
order; rows with a missing or empty item code are skipped silently and
a failing row does not stop later rows.  On the example input (good row
A, empty-code row, row B whose write fails) the result is
`updated_count = 1` with the single error entry for B. -/
theorem update_offer_prices_spec :
    (∀ (write : String → PyVal → Except String Unit) (rows : List UpdateRow),
      (update_offer_prices write rows).success = true ∧
      (update_offer_prices write rows).updated_count =
        rows.countP (updateOk write) ∧
      (update_offer_prices write rows).errors =
        rows.filterMap (updateErr write)) ∧
    (∀ (write : String → PyVal → Except String Unit) (rows : List UpdateRow)
      (r : UpdateRow),
      r.item_code = Option.none ∨ r.item_code = Option.some "" →
      update_offer_prices write (r :: rows) = update_offer_prices write rows) ∧
    (∀ (write : String → PyVal → Except String Unit)
      (rows1 rows2 : List UpdateRow),
      (update_offer_prices write (rows1 ++ rows2)).updated_count =
        (update_offer_prices write rows1).updated_count +
        (update_offer_prices write rows2).updated_count ∧
      (update_offer_prices write (rows1 ++ rows2)).errors =
        (update_offer_prices write rows1).errors ++
        (update_offer_prices write rows2).errors) ∧
    (update_offer_prices exWrite exRows8).updated_count = 1 ∧
    (update_offer_prices exWrite exRows8).errors = [("B", "bad")] ∧
    (update_offer_prices exWrite exRows8).success = true := by
  refine ⟨?_, ?_, ?_, rfl, rfl, rfl⟩
  · intro write rows
    refine ⟨rfl, ?_, ?_⟩
    · simp only [update_offer_prices, updateRowsLoop_eq]
    · simp only [update_offer_prices, updateRowsLoop_eq]
  · intro write rows r hr
    simp only [update_offer_prices, updateRowsLoop]
    rcases hr with h | h <;> rw [h]
    simp
  · intro write rows1 rows2
    constructor
    · simp only [update_offer_prices, updateRowsLoop_eq, List.countP_append]
    · simp only [update_offer_prices, updateRowsLoop_eq, List.filterMap_append]

/-- C8 witness: prepending a row with an empty item code changes nothing
on the example input. -/
theorem update_offer_prices_spec_witness :
    update_offer_prices exWrite
        (⟨Option.some "", PyVal.num 5⟩ :: exRows8) =
      update_offer_prices exWrite exRows8 :=
  update_offer_prices_spec.2.1 exWrite exRows8
    ⟨Option.some "", PyVal.num 5⟩ (Or.inr rfl)
